import Mathlib

/-!
A shallow embedding of the leaderboard Cloudflare Worker (src/src/index.ts).

The service is a stateless HTTP layer over an external sorted-set store
(Upstash Redis).  We model each route handler as a pure function from its
request inputs and the store's responses to the HTTP response it produces
together with the store calls it issues.  JavaScript dynamic values appearing
in request bodies are modelled by the inductive `JVal`; numbers that can be
NaN (results of `parseInt` / `Number`) by `JNum`.  Scores are modelled as
integers: every numeric literal this service manipulates in its tests and
spec is integral, and fractional/exponent/hex literal forms are out of the
model (noted at each parsing function).
-/

namespace SpcEnt

/-- A JavaScript number that may be NaN.  Integral values only: the service's
score data is integral, and no arithmetic is performed on scores. -/
inductive JNum where
  | int (n : Int)
  | nan
deriving DecidableEq, Repr

/-- JavaScript strict comparison `a > b` on numbers: any comparison with NaN
is false. -/
def jsGt : JNum → JNum → Bool
  | JNum.int a, JNum.int b => decide (b < a)
  | _, _ => false

/-- A JSON/JavaScript value as it can appear in a parsed request body
(`await request.json()` followed by destructuring; a missing field
destructures to `undefined`). -/
inductive JVal where
  | undef
  | null
  | bool (b : Bool)
  | num (n : Int)
  | str (s : String)
  | arr (elems : List JVal)
  | obj (fields : List (String × JVal))

/-- JavaScript truthiness (`!name` is the negation of this).  Falsy values:
`undefined`, `null`, `false`, `0`, `""`.  Arrays and objects are always
truthy. -/
def truthy : JVal → Bool
  | JVal.undef => false
  | JVal.null => false
  | JVal.bool b => b
  | JVal.num n => decide (n ≠ 0)
  | JVal.str s => decide (s ≠ "")
  | JVal.arr _ => true
  | JVal.obj _ => true

/-- `typeof score === 'number'`. -/
def isNumberJ : JVal → Bool
  | JVal.num _ => true
  | _ => false

/-- The integer value of a `JVal` known to be a number (only applied after
`isNumberJ` succeeded; the default is irrelevant). -/
def intOfJ : JVal → Int
  | JVal.num n => n
  | _ => 0

mutual

/-- JavaScript `String(v)` / `v.toString()` conversion.  Objects stringify to
"[object Object]"; arrays join their elements with commas, with `null` and
`undefined` elements contributing the empty string. -/
def jsToString : JVal → String
  | JVal.undef => "undefined"
  | JVal.null => "null"
  | JVal.bool true => "true"
  | JVal.bool false => "false"
  | JVal.num n => toString n
  | JVal.str s => s
  | JVal.arr xs => arrToString xs
  | JVal.obj _ => "[object Object]"

/-- `Array.prototype.toString`: elements joined with a comma, with `null` and
`undefined` elements contributing the empty string. -/
def arrToString : List JVal → String
  | [] => ""
  | [JVal.undef] => ""
  | [JVal.null] => ""
  | [x] => jsToString x
  | JVal.undef :: y :: xs => "," ++ arrToString (y :: xs)
  | JVal.null :: y :: xs => "," ++ arrToString (y :: xs)
  | x :: y :: xs => jsToString x ++ "," ++ arrToString (y :: xs)

end

/-- Whitespace skipped by JavaScript `parseInt` / trimmed by `Number`
(the common ASCII whitespace characters). -/
def isSpaceJS (c : Char) : Bool :=
  c = ' ' || c = '\t' || c = '\n' || c = '\r'

/-- Value of a list of decimal digit characters. -/
def digitsVal (l : List Char) : Nat :=
  l.foldl (fun a c => 10 * a + (c.toNat - '0'.toNat)) 0

/-- JavaScript `parseInt(s)` (radix 10): skip leading whitespace, optional
sign, then the longest prefix of decimal digits; NaN when that prefix is
empty.  The automatic radix-16 detection of a "0x" prefix is not modelled
(never exercised by this service's integer query parameters). -/
def parseIntJS (s : String) : JNum :=
  let l := s.data.dropWhile isSpaceJS
  let signed : Int × List Char :=
    match l with
    | '-' :: r => (-1, r)
    | '+' :: r => (1, r)
    | r => (1, r)
  let digs := signed.2.takeWhile Char.isDigit
  if digs.isEmpty then JNum.nan
  else JNum.int (signed.1 * (digitsVal digs : Int))

/-- JavaScript `Number(s)` on a string: trim whitespace; empty string is 0;
otherwise an optional sign followed by (only) decimal digits; anything else
is NaN.  Fractional/exponent/hex literal forms are out of the model. -/
def jsStringToNumber (s : String) : JNum :=
  let t := ((s.data.dropWhile isSpaceJS).reverse.dropWhile isSpaceJS).reverse
  match t with
  | [] => JNum.int 0
  | '-' :: r =>
      if r ≠ [] ∧ r.all Char.isDigit then JNum.int (-(digitsVal r : Int)) else JNum.nan
  | '+' :: r =>
      if r ≠ [] ∧ r.all Char.isDigit then JNum.int (digitsVal r : Int) else JNum.nan
  | r =>
      if r.all Char.isDigit then JNum.int (digitsVal r : Int) else JNum.nan

/-- An element of the store's flat range-query response
(`RedisZRangeResponse = (string | number)[]`, alternating member, score). -/
inductive RVal where
  | str (s : String)
  | num (n : JNum)
deriving DecidableEq, Repr

/-- JavaScript `String(x)` on a store response element. -/
def jsStringOfR : RVal → String
  | RVal.str s => s
  | RVal.num (JNum.int n) => toString n
  | RVal.num JNum.nan => "NaN"

/-- JavaScript `Number(x)` on a store response element. -/
def toNumber : RVal → JNum
  | RVal.num n => n
  | RVal.str s => jsStringToNumber s

/-- One formatted leaderboard entry `{name, score}`. -/
structure LBEntry where
  name : String
  score : JNum
deriving DecidableEq, Repr

/-- `member.split(':')[0]`: the prefix of the member string before its first
colon (the whole string when it has no colon). -/
def nameOfMember (m : String) : String :=
  (m.splitOn ":").headD ""

/-- `formatLeaderboard` from the source: walk the flat response two elements
at a time, `String(entries[i])` for the member and `Number(entries[i+1])` for
the score (for an odd-length response the final score reads `undefined`,
which `Number` turns into NaN), and split the member on `:` for the display
name. -/
def formatLeaderboard : List RVal → List LBEntry
  | [] => []
  | [m] => [⟨nameOfMember (jsStringOfR m), JNum.nan⟩]
  | m :: s :: rest =>
      ⟨nameOfMember (jsStringOfR m), toNumber s⟩ :: formatLeaderboard rest

/-- The wall clock observed by `new Date()`: the service only reads
`getFullYear()` and `getMonth()` (the latter 0-based, 0–11). -/
structure WallClock where
  year : Nat
  monthIndex : Nat
deriving DecidableEq, Repr

/-- `getLeaderboardKey` from the source:
`leaderboard:${year}-${month}:${deviceType}` with `month = getMonth() + 1`. -/
def getLeaderboardKey (now : WallClock) (deviceType : String) : String :=
  "leaderboard:" ++ toString now.year ++ "-" ++ toString (now.monthIndex + 1)
    ++ ":" ++ deviceType

/-- Character class of the sanitization regex `[^a-zA-Z0-9]` (kept
characters). -/
def isAsciiAlphanum (c : Char) : Bool :=
  ('a' ≤ c && c ≤ 'z') || ('A' ≤ c && c ≤ 'Z') || ('0' ≤ c && c ≤ '9')

/-- `name.toString().substring(0, 5).replace(/[^a-zA-Z0-9]/g, '')` on the
underlying character list. -/
def sanitizeList (l : List Char) : List Char :=
  (l.take 5).filter isAsciiAlphanum

/-- Name sanitization from the score-submission handler: truncate to the
first 5 characters, then strip every character that is not an ASCII letter
or digit. -/
def sanitize (s : String) : String :=
  String.mk (sanitizeList s.data)

/-- The body shapes this service puts in its JSON responses (serialization
itself is out of scope). -/
inductive RespBody where
  | successTrue
  | errorInvalidRequest
  | errorInvalidName
  | qualifies (b : Bool)
  | leaderboard (entries : List LBEntry)
  | apiMessage
deriving DecidableEq, Repr

/-- An HTTP response: status code and (JSON) body. -/
structure HttpResponse where
  status : Nat
  body : RespBody
deriving DecidableEq, Repr

/-- The single store write the submission handler can issue:
`redis.zadd(key, { score, member })`. -/
structure ZAddCall where
  key : String
  score : Int
  member : String
deriving DecidableEq, Repr

/-- `['mobile', 'desktop'].includes(deviceType)` (strict equality, so only
those two exact strings pass). -/
def includesDevice : JVal → Bool
  | JVal.str s => s = "mobile" || s = "desktop"
  | _ => false

/-- The POST /api/score handler: validation, name sanitization, and on
success the `zadd` call with member `cleanName:Date.now()`.  Returns the
HTTP response and the store write issued (`none` when no write occurs).
`nowMillis` is `Date.now()`. -/
def submitScore (now : WallClock) (nowMillis : Nat) (name score deviceType : JVal) :
    HttpResponse × Option ZAddCall :=
  if !truthy name || !isNumberJ score || !includesDevice deviceType then
    (⟨400, RespBody.errorInvalidRequest⟩, none)
  else
    let cleanName := sanitize (jsToString name)
    if cleanName = "" then
      (⟨400, RespBody.errorInvalidName⟩, none)
    else
      let member := cleanName ++ ":" ++ toString nowMillis
      let key := getLeaderboardKey now (jsToString deviceType)
      (⟨200, RespBody.successTrue⟩, some ⟨key, intOfJ score, member⟩)

/-- `url.searchParams.get('deviceType') === 'mobile' ? 'mobile' : 'desktop'`
(`none` models an absent parameter). -/
def parseDeviceType (p : Option String) : String :=
  if p = some "mobile" then "mobile" else "desktop"

/-- The GET /api/leaderboard handler.  `rangeResult` is the store's response
to the rank 0–19 descending range query with scores (null modelled as
`none`).  Returns the queried key and the HTTP response. -/
def leaderboardHandler (now : WallClock) (deviceParam : Option String)
    (rangeResult : Option (List RVal)) : String × HttpResponse :=
  let key := getLeaderboardKey now (parseDeviceType deviceParam)
  let data := match rangeResult with
    | none => []
    | some v => v
  (key, ⟨200, RespBody.leaderboard (formatLeaderboard data)⟩)

/-- `parseInt(url.searchParams.get('score') || '0')`: an absent parameter is
`null` and an empty string is falsy, so both fall back to "0" before
parsing. -/
def parseScoreParam (p : Option String) : JNum :=
  parseIntJS (match p with
    | none => "0"
    | some s => if s = "" then "0" else s)

/-- The qualification decision of the check-score handler, after parsing:
if the rank-19 lookup came back empty, qualify iff the full-range count is
below 20; otherwise compare against `Number(entry[1])` (an out-of-bounds
index reads `undefined`, hence NaN). -/
def checkQualifies (score : JNum) (twentieth : List RVal) (count : Nat) : Bool :=
  if twentieth.length = 0 then
    decide (count < 20)
  else
    let minScore := match twentieth.get? 1 with
      | some v => toNumber v
      | none => JNum.nan
    jsGt score minScore

/-- The GET /api/check-score handler.  `rank19Result` is the store's response
to the rank 19–19 descending range query with scores (null modelled as
`none`); `count` is the store's answer to the full-range `zcount` (issued
only on the empty branch in the source; passed as an input here).  Returns
the queried key and the HTTP response. -/
def checkScoreHandler (now : WallClock) (scoreParam deviceParam : Option String)
    (rank19Result : Option (List RVal)) (count : Nat) : String × HttpResponse :=
  let score := parseScoreParam scoreParam
  let key := getLeaderboardKey now (parseDeviceType deviceParam)
  let twentieth := match rank19Result with
    | none => []
    | some v => v
  (key, ⟨200, RespBody.qualifies (checkQualifies score twentieth count)⟩)

/-- Flatten a list of (member, score) pairs into the store's interleaved
flat response shape. -/
def flattenPairs : List (String × Int) → List RVal
  | [] => []
  | (m, s) :: rest => RVal.str m :: RVal.num (JNum.int s) :: flattenPairs rest

/-- Non-strict descending order on possibly-NaN scores (used to state the
ordering of the formatted output; only integer scores compare). -/
def jnumGe (a b : JNum) : Bool :=
  match a, b with
  | JNum.int x, JNum.int y => decide (y ≤ x)
  | _, _ => false

/-- The spec's description of the first half of sanitization: take the first
5 characters. -/
def takeFirstFive (s : String) : String :=
  String.mk (s.data.take 5)

/-- The spec's description of the second half of sanitization: remove every
character that is not an ASCII letter or digit. -/
def stripNonAlphanum (s : String) : String :=
  String.mk (s.data.filter isAsciiAlphanum)

/-! ### Helper lemmas -/

/-- With sufficient fuel, `Nat.toDigitsCore` produces exactly one character
per decimal digit, prepended to the accumulator. -/
lemma toDigitsCore_len_eq (b : Nat) (hb : 2 ≤ b) :
    ∀ (f n : Nat) (l : List Char), n < f →
      (Nat.toDigitsCore b f n l).length = Nat.log b n + 1 + l.length := by
  intro f
  induction f with
  | zero => intro n l h; omega
  | succ f ih =>
      intro n l h
      simp only [Nat.toDigitsCore]
      by_cases hdiv : n / b = 0
      · rw [if_pos hdiv]
        have hnb : n < b := (Nat.div_eq_zero_iff (by omega)).mp hdiv
        have hlog : Nat.log b n = 0 := Nat.log_eq_zero_iff.mpr (Or.inl hnb)
        simp [hlog]
        omega
      · rw [if_neg hdiv]
        have hbn : b ≤ n := by
          by_contra hc
          push_neg at hc
          exact hdiv ((Nat.div_eq_zero_iff (by omega)).mpr hc)
        have hlt : n / b < f :=
          lt_of_lt_of_le (Nat.div_lt_self (by omega) (by omega)) (by omega)
        rw [ih (n / b) (Nat.digitChar (n % b) :: l) hlt]
        have hlog : Nat.log b (n / b) = Nat.log b n - 1 := Nat.log_div_base b n
        have hpos : 1 ≤ Nat.log b n := by
          rcases Nat.eq_zero_or_pos (Nat.log b n) with h0 | h1
          · rcases Nat.log_eq_zero_iff.mp h0 with h2 | h2 <;> omega
          · exact h1
        simp only [List.length_cons, hlog]
        omega

/-- The decimal representation of `n` has `log 10 n + 1` characters. -/
lemma repr_len_eq (n : Nat) : (Nat.repr n).length = Nat.log 10 n + 1 := by
  simp only [Nat.repr, Nat.toDigits, String.length, List.asString]
  rw [toDigitsCore_len_eq 10 (by norm_num) (n + 1) n [] (Nat.lt_succ_self n)]
  simp

/-- Numbers between 1000 and 9999 print with exactly 4 digits. -/
lemma repr_len_four (y : Nat) (h1 : 1000 ≤ y) (h2 : y ≤ 9999) :
    (Nat.repr y).length = 4 := by
  rw [repr_len_eq]
  have hlog : Nat.log 10 y = 3 := by
    apply Nat.log_eq_of_pow_le_of_lt_pow
    · norm_num
      omega
    · norm_num
      omega
  omega

lemma toString_nat_eq (n : Nat) : (toString n : String) = Nat.repr n := rfl

/-- Truncating then stripping is idempotent on character lists. -/
lemma sanitizeList_idem (l : List Char) :
    sanitizeList (sanitizeList l) = sanitizeList l := by
  unfold sanitizeList
  have h1 : ((l.take 5).filter isAsciiAlphanum).length ≤ 5 :=
    le_trans (List.length_filter_le _ _) (List.length_take_le 5 l)
  rw [List.take_of_length_le h1, List.filter_filter]
  simp

/-- `formatLeaderboard` on a well-formed interleaved response is exactly the
per-pair transform. -/
lemma formatLeaderboard_flatten (pairs : List (String × Int)) :
    formatLeaderboard (flattenPairs pairs)
      = pairs.map (fun p => (⟨nameOfMember p.1, JNum.int p.2⟩ : LBEntry)) := by
  induction pairs with
  | nil => rfl
  | cons p rest ih =>
      obtain ⟨m, s⟩ := p
      simp [flattenPairs, formatLeaderboard, ih, jsStringOfR, toNumber]

/-! ### Claim theorems -/

/-- C1: in the check-score operation, when the rank-19 descending lookup
returns a 20th entry `[member, score]`, the response is
`{qualifies: true}` iff the candidate score is strictly greater than that
entry's score (equal scores do not qualify). -/
theorem c1_twentieth_entry_strict_comparison (now : WallClock)
    (sp dp : Option String) (count : Nat) (mem : String) (s m : Int)
    (hs : parseScoreParam sp = JNum.int s) :
    (checkScoreHandler now sp dp (some [RVal.str mem, RVal.num (JNum.int m)])
        count).2 = ⟨200, RespBody.qualifies (decide (m < s))⟩ ∧
    ((checkScoreHandler now sp dp (some [RVal.str mem, RVal.num (JNum.int m)])
        count).2 = ⟨200, RespBody.qualifies true⟩ ↔ m < s) := by
  constructor
  · simp [checkScoreHandler, checkQualifies, hs, jsGt, toNumber]
  · simp [checkScoreHandler, checkQualifies, hs, jsGt, toNumber]

theorem c1_twentieth_entry_strict_comparison_witness :
    (checkScoreHandler ⟨2025, 9⟩ (some "82") none
        (some [RVal.str "ab:1", RVal.num (JNum.int 81)]) 20).2
      = ⟨200, RespBody.qualifies (decide ((81 : Int) < 82))⟩ ∧
    ((checkScoreHandler ⟨2025, 9⟩ (some "82") none
        (some [RVal.str "ab:1", RVal.num (JNum.int 81)]) 20).2
      = ⟨200, RespBody.qualifies true⟩ ↔ (81 : Int) < 82) :=
  c1_twentieth_entry_strict_comparison ⟨2025, 9⟩ (some "82") none 20 "ab:1"
    82 81 (by decide)

/-- C2: in the check-score operation, when the rank-19 lookup returns no
entry (null or empty), the response is `{qualifies: true}` iff the
full-range count is strictly below 20 (whatever the candidate score), and
`{qualifies: false}` iff the count is 20 or more. -/
theorem c2_count_branch_decides (now : WallClock) (sp dp : Option String)
    (count : Nat) :
    ((checkScoreHandler now sp dp none count).2
        = ⟨200, RespBody.qualifies true⟩ ↔ count < 20) ∧
    ((checkScoreHandler now sp dp none count).2
        = ⟨200, RespBody.qualifies false⟩ ↔ 20 ≤ count) ∧
    ((checkScoreHandler now sp dp (some []) count).2
        = ⟨200, RespBody.qualifies true⟩ ↔ count < 20) ∧
    ((checkScoreHandler now sp dp (some []) count).2
        = ⟨200, RespBody.qualifies false⟩ ↔ 20 ≤ count) := by
  refine ⟨?_, ?_, ?_, ?_⟩ <;>
    simp [checkScoreHandler, checkQualifies, Nat.not_lt]

/-- C9: a leaderboard fetch whose store range query returns null or an empty
array responds with HTTP 200 and an empty entries array, not an error. -/
theorem c9_empty_partition_ok (now : WallClock) (dp : Option String) :
    (leaderboardHandler now dp none).2 = ⟨200, RespBody.leaderboard []⟩ ∧
    (leaderboardHandler now dp (some [])).2
      = ⟨200, RespBody.leaderboard []⟩ := by
  exact ⟨rfl, rfl⟩

/-- C5: name sanitization is idempotent (and, being modelled as a pure
function of the input string, deterministic):
`sanitize (sanitize s) = sanitize s` for every string `s`. -/
theorem c5_sanitize_idempotent (s : String) :
    sanitize (sanitize s) = sanitize s := by
  show String.mk (sanitizeList (sanitizeList s.data)) = String.mk (sanitizeList s.data)
  rw [sanitizeList_idem]

/-- C3 (counterexample): sanitizing "ab!@12345" yields "ab1", not "ab12" as
claimed — truncation to 5 characters happens first, leaving "ab!@1", whose
alphanumeric residue is "ab1". -/
theorem c3_sanitize_example_counterexample :
    sanitize "ab!@12345" = "ab1" ∧ sanitize "ab!@12345" ≠ "ab12" := by
  decide

/-- C3 (amended): name sanitization truncates to the first 5 characters and
then strips every non-alphanumeric character; sanitizing "ab!@12345" yields
"ab1" (not "ab12"), sanitizing "!!!" yields the empty string, and such a
submission is rejected with HTTP 400 `{error: "Invalid name"}` and no store
write. -/
theorem c3_sanitize_truncate_then_strip :
    (∀ s : String, sanitize s = stripNonAlphanum (takeFirstFive s)) ∧
    sanitize "ab!@12345" = "ab1" ∧
    sanitize "!!!" = "" ∧
    submitScore ⟨2025, 9⟩ 111 (JVal.str "!!!") (JVal.num 10) (JVal.str "mobile")
      = (⟨400, RespBody.errorInvalidName⟩, none) := by
  refine ⟨fun s => rfl, by decide, by decide, by decide⟩

/-- C4 (counterexample): a present but unparseable score parameter parses to
NaN, not 0: `parseInt("abc")` is NaN. -/
theorem c4_unparseable_score_counterexample :
    parseScoreParam (some "abc") ≠ JNum.int 0 ∧
    parseScoreParam (some "abc") = JNum.nan := by
  decide

/-- C4 (amended): the score parsed from the query parameter is 0 when the
parameter is absent or the empty string; when present but unparseable as an
integer it is NaN (not 0), which never exceeds a 20th-entry score; in every
case the request is answered 200 with a `{qualifies: ...}` body, never
rejected. -/
theorem c4_score_default_amended :
    parseScoreParam none = JNum.int 0 ∧
    parseScoreParam (some "") = JNum.int 0 ∧
    parseScoreParam (some "abc") = JNum.nan ∧
    (∀ (now : WallClock) (sp dp : Option String) (r : Option (List RVal))
        (count : Nat),
      ((checkScoreHandler now sp dp r count).2).status = 200 ∧
      ∃ b, ((checkScoreHandler now sp dp r count).2).body
            = RespBody.qualifies b) ∧
    (∀ (now : WallClock) (dp : Option String) (count : Nat) (mem : String)
        (m : Int),
      (checkScoreHandler now (some "abc") dp
          (some [RVal.str mem, RVal.num (JNum.int m)]) count).2
        = ⟨200, RespBody.qualifies false⟩) := by
  refine ⟨by decide, by decide, by decide, ?_, ?_⟩
  · intro now sp dp r count
    exact ⟨rfl, ⟨_, rfl⟩⟩
  · intro now dp count mem m
    have h : parseScoreParam (some "abc") = JNum.nan := by decide
    simp [checkScoreHandler, checkQualifies, h, jsGt, toNumber]

/-- C6: for every store response made of at most 20 (member, score) pairs in
descending score order, the leaderboard transform returns at most 20
`{name, score}` entries whose scores are non-increasing, each name being the
member's prefix before its first colon. -/
theorem c6_leaderboard_shape (pairs : List (String × Int))
    (hlen : pairs.length ≤ 20)
    (hsorted : List.Chain' (fun a b : String × Int => b.2 ≤ a.2) pairs) :
    formatLeaderboard (flattenPairs pairs)
        = pairs.map (fun p => (⟨nameOfMember p.1, JNum.int p.2⟩ : LBEntry)) ∧
    (formatLeaderboard (flattenPairs pairs)).length ≤ 20 ∧
    List.Chain' (fun a b : LBEntry => jnumGe a.score b.score = true)
      (formatLeaderboard (flattenPairs pairs)) := by
  refine ⟨formatLeaderboard_flatten pairs, ?_, ?_⟩
  · rw [formatLeaderboard_flatten]
    simpa using hlen
  · rw [formatLeaderboard_flatten, List.chain'_map]
    refine hsorted.imp ?_
    intro a b hab
    simpa [jnumGe] using hab

theorem c6_leaderboard_shape_witness :
    formatLeaderboard (flattenPairs [("ab:123", 5), ("cd:9", 3)])
        = [("ab:123", (5 : Int)), ("cd:9", 3)].map
            (fun p => (⟨nameOfMember p.1, JNum.int p.2⟩ : LBEntry)) ∧
    (formatLeaderboard (flattenPairs [("ab:123", 5), ("cd:9", 3)])).length ≤ 20 ∧
    List.Chain' (fun a b : LBEntry => jnumGe a.score b.score = true)
      (formatLeaderboard (flattenPairs [("ab:123", 5), ("cd:9", 3)])) :=
  c6_leaderboard_shape [("ab:123", 5), ("cd:9", 3)] (by decide)
    (by simp [List.chain'_cons])

/-- C7: a submission with a falsy/missing name, a score that is not a
number, or a deviceType other than "mobile"/"desktop" is answered 400
`{error: "Invalid request"}` with no store write; a submission whose name
sanitizes to the empty string is answered 400 `{error: "Invalid name"}`,
also with no store write. -/
theorem c7_invalid_submit_rejected_no_write (now : WallClock) (ms : Nat)
    (name score deviceType : JVal) :
    (truthy name = false ∨ isNumberJ score = false ∨
        includesDevice deviceType = false →
      submitScore now ms name score deviceType
        = (⟨400, RespBody.errorInvalidRequest⟩, none)) ∧
    (truthy name = true → isNumberJ score = true →
        includesDevice deviceType = true →
        sanitize (jsToString name) = "" →
      submitScore now ms name score deviceType
        = (⟨400, RespBody.errorInvalidName⟩, none)) := by
  constructor
  · intro h
    unfold submitScore
    rcases h with h | h | h <;> simp [h]
  · intro h1 h2 h3 h4
    unfold submitScore
    simp [h1, h2, h3, h4]

theorem c7_invalid_submit_rejected_no_write_witness :
    submitScore ⟨2025, 9⟩ 5 (JVal.num 0) (JVal.num 1) (JVal.str "mobile")
        = (⟨400, RespBody.errorInvalidRequest⟩, none) ∧
    submitScore ⟨2025, 9⟩ 5 (JVal.str "@@@") (JVal.num 1) (JVal.str "mobile")
        = (⟨400, RespBody.errorInvalidName⟩, none) :=
  ⟨(c7_invalid_submit_rejected_no_write ⟨2025, 9⟩ 5 (JVal.num 0) (JVal.num 1)
      (JVal.str "mobile")).1 (Or.inl (by decide)),
   (c7_invalid_submit_rejected_no_write ⟨2025, 9⟩ 5 (JVal.str "@@@")
      (JVal.num 1) (JVal.str "mobile")).2 (by decide) (by decide) (by decide)
      (by decide)⟩

/-- C10: submit-score validation tests the name only for truthiness: any
truthy JSON value passes that check and is stringified before sanitization,
while any falsy value (empty string, 0, false, null, undefined/missing)
yields 400 `{error: "Invalid request"}`. -/
theorem c10_name_truthiness (now : WallClock) (ms : Nat)
    (name score deviceType : JVal) :
    (truthy name = true → isNumberJ score = true →
        includesDevice deviceType = true →
      submitScore now ms name score deviceType
        = (if sanitize (jsToString name) = "" then
             (⟨400, RespBody.errorInvalidName⟩, none)
           else
             (⟨200, RespBody.successTrue⟩,
              some ⟨getLeaderboardKey now (jsToString deviceType),
                    intOfJ score,
                    sanitize (jsToString name) ++ ":" ++ toString ms⟩))) ∧
    (truthy name = false →
      submitScore now ms name score deviceType
        = (⟨400, RespBody.errorInvalidRequest⟩, none)) := by
  constructor
  · intro h1 h2 h3
    unfold submitScore
    simp [h1, h2, h3]
  · intro h
    unfold submitScore
    simp [h]

theorem c10_name_truthiness_witness :
    submitScore ⟨2025, 9⟩ 99 (JVal.num 12345) (JVal.num 7) (JVal.str "mobile")
        = (⟨200, RespBody.successTrue⟩,
           some ⟨"leaderboard:2025-10:mobile", 7, "12345:99"⟩) ∧
    submitScore ⟨2025, 9⟩ 99 (JVal.num 0) (JVal.num 7) (JVal.str "mobile")
        = (⟨400, RespBody.errorInvalidRequest⟩, none) := by
  constructor
  · have h := (c10_name_truthiness ⟨2025, 9⟩ 99 (JVal.num 12345) (JVal.num 7)
      (JVal.str "mobile")).1 (by decide) (by decide) (by decide)
    exact h.trans (by decide)
  · exact (c10_name_truthiness ⟨2025, 9⟩ 99 (JVal.num 0) (JVal.num 7)
      (JVal.str "mobile")).2 (by decide)

/-- C8: the partition key is a pure function of the wall clock and the
device type, of the shape `leaderboard:{year}-{month}:{deviceType}` with the
month 1–12 unpadded and the year printed with 4 digits for 4-digit years;
all three handlers derive their store key through `getLeaderboardKey`. -/
theorem c8_partition_key_format (now : WallClock) (d : String) :
    getLeaderboardKey now d
        = "leaderboard:" ++ toString now.year ++ "-"
            ++ toString (now.monthIndex + 1) ++ ":" ++ d ∧
    (1000 ≤ now.year → now.year ≤ 9999 → (toString now.year).length = 4) ∧
    (now.monthIndex ≤ 11 → 1 ≤ now.monthIndex + 1 ∧ now.monthIndex + 1 ≤ 12) ∧
    (∀ (sp dp : Option String) (r : Option (List RVal)) (count : Nat),
      (checkScoreHandler now sp dp r count).1
        = getLeaderboardKey now (parseDeviceType dp)) ∧
    (∀ (dp : Option String) (r : Option (List RVal)),
      (leaderboardHandler now dp r).1
        = getLeaderboardKey now (parseDeviceType dp)) ∧
    (∀ (ms : Nat) (name score deviceType : JVal) (zc : ZAddCall),
      (submitScore now ms name score deviceType).2 = some zc →
      zc.key = getLeaderboardKey now (jsToString deviceType)) := by
  refine ⟨rfl, ?_, by omega, fun _ _ _ _ => rfl, fun _ _ => rfl, ?_⟩
  · intro h1 h2
    show (Nat.repr now.year).length = 4
    exact repr_len_four now.year h1 h2
  · intro ms name score deviceType zc h
    unfold submitScore at h
    by_cases hc : (!truthy name || !isNumberJ score
        || !includesDevice deviceType) = true
    · rw [if_pos hc] at h
      simp at h
    · rw [if_neg hc] at h
      by_cases hs : sanitize (jsToString name) = ""
      · simp [hs] at h
      · simp [hs] at h
        rw [← h]

theorem c8_partition_key_format_witness :
    (toString ((⟨2025, 9⟩ : WallClock).year)).length = 4 ∧
    (1 ≤ (⟨2025, 9⟩ : WallClock).monthIndex + 1 ∧
      (⟨2025, 9⟩ : WallClock).monthIndex + 1 ≤ 12) ∧
    getLeaderboardKey ⟨2025, 9⟩ "mobile"
        = "leaderboard:" ++ toString ((⟨2025, 9⟩ : WallClock).year) ++ "-"
            ++ toString ((⟨2025, 9⟩ : WallClock).monthIndex + 1) ++ ":"
            ++ "mobile" ∧
    (⟨"leaderboard:2025-10:mobile", 7, "abc:5"⟩ : ZAddCall).key
        = getLeaderboardKey ⟨2025, 9⟩ (jsToString (JVal.str "mobile")) :=
  ⟨(c8_partition_key_format ⟨2025, 9⟩ "mobile").2.1 (by norm_num) (by norm_num),
   (c8_partition_key_format ⟨2025, 9⟩ "mobile").2.2.1 (by norm_num),
   (c8_partition_key_format ⟨2025, 9⟩ "mobile").1,
   (c8_partition_key_format ⟨2025, 9⟩ "mobile").2.2.2.2.2 5 (JVal.str "abc")
     (JVal.num 7) (JVal.str "mobile") ⟨"leaderboard:2025-10:mobile", 7, "abc:5"⟩
     (by decide)⟩

end SpcEnt
